import Mathlib

/-!
Verification of the educational-assistant UI core: document ingestion and
registration, the session state store, and the IEP / lesson-plan / chat
pipelines, shallowly embedded from the repository sources
(`ui/components/sidebar.py`, `lesson_plan.py`, `iep.py`, `chat.py`,
`document_utils.py`, and the legacy duplicates in `ui/app.py`).
External collaborators (file handler, document loader, vector store,
generation capability) appear as explicit environment data; the session
state store itself (`ui/state_manager.py` is not among the sources) is
modelled from the specification.
-/

set_option linter.unusedVariables false

namespace EduAssist

/-- Lookup in a Python-style string dict represented as an insertion-ordered
association list: `m.get(k)` returns the first binding of `k`, if any. -/
def metaGet (m : List (String × String)) (k : String) : Option String :=
  (m.find? (fun kv => kv.fst == k)).map Prod.snd

/-- Assignment in a Python-style string dict: `m[k] = v` overwrites the
binding of `k` in place if one exists, otherwise appends a new binding. -/
def metaSet : List (String × String) → String → String → List (String × String)
  | [], k, v => [(k, v)]
  | kv :: rest, k, v =>
      if kv.fst == k then (k, v) :: rest else kv :: metaSet rest k v

/-- A registered document as the UI handles it: `page_content` plus a
string-keyed metadata dict (`langchain.schema.Document`). -/
structure Document where
  page_content : String
  metadata : List (String × String)
  deriving Repr, DecidableEq

/-- An IEP artifact as built by `handle_iep_generation` in
`ui/components/iep.py`: id, source display name, source document id,
generated content, timestamp. -/
structure IEPResult where
  id : String
  source : String
  source_id : String
  content : String
  timestamp : String
  deriving Repr, DecidableEq

/-- A lesson-plan artifact as built by `handle_lesson_plan_generation` in
`ui/components/lesson_plan.py`: id, the structured input parameters, the
generated content, and the source-IEP references. -/
structure LessonPlan where
  id : String
  subject : String
  grade_level : String
  duration : String
  timeframe : String
  days : List String
  specific_goals : List String
  materials : List String
  additional_accommodations : List String
  content : String
  source_iep_id : String
  source_iep_source : String
  timestamp : String
  deriving Repr, DecidableEq

/-- A chat message as appended by `handle_chat_input` in
`ui/components/chat.py`: role, content, and the attributed source
documents. -/
structure ChatMessage where
  role : String
  content : String
  sources : List Document
  deriving Repr, DecidableEq

/-- Modelled from the spec: a `QueryRecord` in the `rag_queries` log
(spec section 3) — query text, retrieved chunk references, generated
result, timestamp. The code that appends to this log is not among the
repository sources; the claims below only need that the log is one of the
collections of the session state. -/
structure QueryRecord where
  query : String
  retrieved : List String
  result : String
  timestamp : String
  deriving Repr, DecidableEq

/-- Modelled from the spec: the session state store
(`ui/state_manager.py` is not among the repository sources). Per spec
section 4.5 it maps collection names to ordered sequences plus boolean
health flags, with `get`, `set` (atomic replace), `append`, and a health
merge; here each collection the UI components read or write is a field,
and the store operations are the evident field updates used below. -/
structure SessionState where
  documents : List Document
  messages : List ChatMessage
  iep_results : List IEPResult
  lesson_plans : List LessonPlan
  rag_queries : List QueryRecord
  current_plan : Option LessonPlan
  documents_processed : Bool
  llm_initialized : Bool
  vector_store_initialized : Bool
  chain_initialized : Bool
  deriving Repr, DecidableEq

/-- The session state at session start: empty collections, all flags
false (spec section 4.5). -/
def SessionState.initial : SessionState :=
  { documents := [], messages := [], iep_results := [], lesson_plans := [],
    rag_queries := [], current_plan := none, documents_processed := false,
    llm_initialized := false, vector_store_initialized := false,
    chain_initialized := false }

/-- The generation capability's response as the UI code observes it:
`chat_completion` may return a falsy value, a mapping without a `content`
key, or a mapping whose `content` key holds the generated text. -/
inductive LLMResponse where
  | noResponse
  | missingContent
  | content (text : String)
  deriving Repr, DecidableEq

/-! The lesson-plan pipeline (`ui/components/lesson_plan.py`). -/

/-- Embedding of `prepare_lesson_plan_prompt` (lesson_plan.py lines
209-259): the f-string template over subject, grade level, timeframe,
duration, days, goals, materials, accommodations and the selected IEP
dict, reproduced verbatim. -/
def prepare_lesson_plan_prompt (subject grade_level timeframe duration : String)
    (days_per_week goals_list materials_list accommodations_list : List String)
    (selected_iep : IEPResult) : String :=
  let schedule :=
    if timeframe == "Weekly" then String.intercalate ", " days_per_week else "Daily"
  let goals :=
    String.intercalate "\n"
      ((goals_list.filter (fun goal => !goal.isEmpty)).map (fun goal => "- " ++ goal))
  let items :=
    String.intercalate "\n"
      ((materials_list.filter (fun item => !item.isEmpty)).map (fun item => "- " ++ item))
  let accs :=
    String.intercalate "\n"
      ((accommodations_list.filter (fun acc => !acc.isEmpty)).map (fun acc => "- " ++ acc))
  "\n    Create a detailed " ++ timeframe.toLower ++ " lesson plan for " ++ subject
    ++ " for " ++ grade_level ++ " students.\n    \n    The plan should be based on the following IEP:\n    "
    ++ selected_iep.content
    ++ "\n    \n    Class details:\n    - Subject: " ++ subject
    ++ "\n    - Grade Level: " ++ grade_level
    ++ "\n    - Duration: " ++ duration
    ++ "\n    - Schedule: " ++ schedule
    ++ "\n    \n    Learning Goals:\n    " ++ goals
    ++ "\n    \n    Materials Needed:\n    " ++ items
    ++ "\n    \n    Additional Accommodations:\n    " ++ accs
    ++ "\n    \n    Please create a comprehensive lesson plan with:\n    1. Learning objectives\n    2. Detailed schedule/timeline\n    3. Teaching strategies with specific IEP accommodations\n    4. Assessment methods\n    5. Resources and materials organization\n    \n    Format the plan clearly with sections and bullet points where appropriate.\n    "

/-- Outcome of one lesson-plan generation attempt, mirroring the early
returns of `handle_lesson_plan_generation`. -/
inductive LessonPlanOutcome where
  | iepNotFound
  | llmNotInitialized
  | generationFailed
  | success
  deriving Repr, DecidableEq

/-- Embedding of `handle_lesson_plan_generation` (lesson_plan.py lines
112-207): look up the selected IEP in `iep_results`; on a dangling
reference report an error and return; otherwise require the LLM client,
split the free-text fields into lists, assemble the prompt, call the
capability, and on a response carrying `content` append the plan to
`lesson_plans` and set it as `current_plan`. The capability call and the
minted uuid/timestamp are environment inputs. -/
def handle_lesson_plan_generation (st : SessionState)
    (subject grade_level timeframe duration : String) (days_per_week : List String)
    (specific_goals materials additional_accommodations : String)
    (selected_iep_id : String) (llm_available : Bool) (llm_response : LLMResponse)
    (new_id timestamp : String) : SessionState × LessonPlanOutcome :=
  match st.iep_results.find? (fun iep => iep.id == selected_iep_id) with
  | none => (st, .iepNotFound)
  | some selected_iep =>
    if !llm_available then (st, .llmNotInitialized)
    else
      let goals_list := specific_goals.trim.splitOn "\n"
      let materials_list :=
        if !materials.isEmpty then materials.trim.splitOn "\n" else []
      let accommodations_list :=
        if !additional_accommodations.isEmpty then
          additional_accommodations.trim.splitOn "\n"
        else []
      let prompt := prepare_lesson_plan_prompt subject grade_level timeframe duration
        days_per_week goals_list materials_list accommodations_list selected_iep
      match llm_response with
      | .content text =>
          let plan_data : LessonPlan :=
            { id := new_id, subject := subject, grade_level := grade_level,
              duration := duration, timeframe := timeframe, days := days_per_week,
              specific_goals := goals_list, materials := materials_list,
              additional_accommodations := accommodations_list, content := text,
              source_iep_id := selected_iep_id,
              source_iep_source := selected_iep.source, timestamp := timestamp }
          ({ st with lesson_plans := st.lesson_plans ++ [plan_data],
                     current_plan := some plan_data }, .success)
      | _ => (st, .generationFailed)

/-- The days list as computed by `render_lesson_plan_form` (lesson_plan.py
lines 58-65): the multiselect result when the timeframe is Weekly,
otherwise the fixed list containing only "Daily". -/
def form_days_per_week (timeframe : String) (multiselect_days : List String) :
    List String :=
  if timeframe == "Weekly" then multiselect_days else ["Daily"]

/-- Outcome of a form submission in `render_lesson_plan_form`. -/
inductive FormOutcome where
  | requiredFieldsError
  | generated (o : LessonPlanOutcome)
  deriving Repr, DecidableEq

/-- Embedding of the submit branch of `render_lesson_plan_form`
(lesson_plan.py lines 100-110): the required-field check tests the
truthiness of subject, grade level, duration, goals and the selected IEP
(the days list is not in the checked tuple), then delegates to
`handle_lesson_plan_generation`. `selected_iep` is `none` when no IEPs
exist in the registry. -/
def lesson_plan_form_submit (st : SessionState)
    (subject grade_level timeframe duration : String) (multiselect_days : List String)
    (specific_goals materials additional_accommodations : String)
    (selected_iep : Option String) (llm_available : Bool) (llm_response : LLMResponse)
    (new_id timestamp : String) : SessionState × FormOutcome :=
  let days_per_week := form_days_per_week timeframe multiselect_days
  let iep_truthy := match selected_iep with
    | none => false
    | some s => !s.isEmpty
  if !(!subject.isEmpty && !grade_level.isEmpty && !duration.isEmpty
        && !specific_goals.isEmpty && iep_truthy) then
    (st, .requiredFieldsError)
  else
    match selected_iep with
    | some iep_id =>
        let r := handle_lesson_plan_generation st subject grade_level timeframe
          duration days_per_week specific_goals materials additional_accommodations
          iep_id llm_available llm_response new_id timestamp
        (r.fst, .generated r.snd)
    | none => (st, .requiredFieldsError)

/-! The ingestion pipeline (`ui/components/sidebar.py`). -/

/-- Per-file environment outcome for one uploaded file, as
`process_uploaded_files` observes its collaborators: the file handler may
raise `FileHandlerError`, any other step may raise an unexpected
exception (both caught per file), the loader may report failure
(`result.success` false with an error message), or the loader yields a
document (page content plus loader metadata), after which the vector
store `add_documents` call either succeeds or fails. -/
inductive FileOutcome where
  | handlerError (msg : String)
  | unexpectedError (msg : String)
  | loadFailure (error_message : String)
  | loaded (page_content : String) (loader_metadata : List (String × String))
      (add_ok : Bool)
  deriving Repr, DecidableEq

/-- One uploaded file: its name, the wall-clock timestamp the code reads
while processing it, and the environment outcome of its processing. -/
structure UploadFile where
  name : String
  upload_time : String
  outcome : FileOutcome
  deriving Repr, DecidableEq

/-- Observable events of one ingestion run: the early error when the
vector store is absent, the per-file error and success reports, the
batch-level report, and the file-handler cleanup call. -/
inductive IngestEvent where
  | vectorStoreMissingError
  | fileError (name : String)
  | fileSuccess (name : String)
  | batchSuccess (count : Nat)
  | batchWarning (count : Nat)
  | batchFailure
  | cleanup
  deriving Repr, DecidableEq

/-- State threaded through one ingestion run: the session state, the set
of document ids committed to the vector index, the `processing_success`
flag, the `documents_processed` counter, and the emitted events. -/
structure IngestState where
  session : SessionState
  index : List String
  processing_success : Bool
  documents_processed : Nat
  events : List IngestEvent
  deriving Repr, DecidableEq

/-- Embedding of one iteration of the file loop in
`process_uploaded_files` (sidebar.py lines 73-112): handler/unexpected
exceptions and loader failures report a per-file error, clear
`processing_success` and continue; on a loaded document the code writes
`source`, `upload_time` and a freshly minted `id` equal to `doc_` plus
the current registry length into its metadata, appends it to the
`documents` collection, and only then attempts the vector-store add — a
failed add reports a per-file error and continues, a successful add
commits the id to the index and counts the file as processed. -/
def processFile (s : IngestState) (f : UploadFile) : IngestState :=
  match f.outcome with
  | .handlerError _ =>
      { s with processing_success := false,
               events := s.events ++ [.fileError f.name] }
  | .unexpectedError _ =>
      { s with processing_success := false,
               events := s.events ++ [.fileError f.name] }
  | .loadFailure _ =>
      { s with processing_success := false,
               events := s.events ++ [.fileError f.name] }
  | .loaded page_content loader_metadata add_ok =>
      let doc_id := "doc_" ++ toString s.session.documents.length
      let metadata :=
        metaSet (metaSet (metaSet loader_metadata "source" f.name)
          "upload_time" f.upload_time) "id" doc_id
      let document : Document := ⟨page_content, metadata⟩
      let session :=
        { s.session with documents := s.session.documents ++ [document] }
      if !add_ok then
        { s with session := session, processing_success := false,
                 events := s.events ++ [.fileError f.name] }
      else
        { s with session := session, index := s.index ++ [doc_id],
                 documents_processed := s.documents_processed + 1,
                 events := s.events ++ [.fileSuccess f.name] }

/-- Embedding of the batch report after the file loop (sidebar.py lines
114-125): full success sets `documents_processed` and the
vector-store-initialized flag, mixed outcomes warn, zero processed files
report a batch failure. -/
def ingest_finalize (s : IngestState) : IngestState :=
  if s.processing_success && decide (0 < s.documents_processed) then
    let session := { s.session with documents_processed := true,
                                    vector_store_initialized := true }
    { s with session := session,
             events := s.events ++ [.batchSuccess s.documents_processed] }
  else if 0 < s.documents_processed then
    { s with events := s.events ++ [.batchWarning s.documents_processed] }
  else
    { s with events := s.events ++ [.batchFailure] }

/-- The body of `process_uploaded_files` once the vector store is known
to be present: run the file loop, emit the batch report, then call
`file_handler.cleanup()`. -/
def process_with_store (st : SessionState) (index : List String)
    (files : List UploadFile) : IngestState :=
  let s := ingest_finalize (files.foldl processFile ⟨st, index, true, 0, []⟩)
  { s with events := s.events ++ [.cleanup] }

/-- Embedding of `process_uploaded_files` (sidebar.py lines 55-128): an
absent vector store reports an error and returns before any handler is
created; otherwise the batch is processed and cleanup is invoked after
it. -/
def process_uploaded_files (st : SessionState) (index : List String)
    (vector_store_present : Bool) (files : List UploadFile) : IngestState :=
  if !vector_store_present then
    ⟨st, index, true, 0, [.vectorStoreMissingError]⟩
  else
    process_with_store st index files

/-- Embedding of `clear_documents` (sidebar.py lines 130-153): clear the
vector index when the store is present, then reset `documents_processed`,
empty the `documents`, `iep_results` and `lesson_plans` collections, and
reset the vector-store-initialized flag. -/
def clear_documents (st : SessionState) (index : List String)
    (vector_store_present : Bool) : SessionState × List String :=
  ({ st with documents_processed := false, documents := [], iep_results := [],
             lesson_plans := [], vector_store_initialized := false },
   if vector_store_present then [] else index)

/-! The IEP pipeline (`ui/components/iep.py`). -/

/-- Embedding of `get_document_by_id` (document_utils.py lines 61-74):
the first registered document whose metadata `id` equals the requested
id. -/
def get_document_by_id (st : SessionState) (doc_id : String) : Option Document :=
  st.documents.find? (fun doc => metaGet doc.metadata "id" == some doc_id)

/-- Outcome of one IEP generation attempt, mirroring the early returns of
`handle_iep_generation`. -/
inductive IEPOutcome where
  | documentNotFound
  | llmNotInitialized
  | generationFailed
  | success
  deriving Repr, DecidableEq

/-- Embedding of `handle_iep_generation` (iep.py lines 52-105): look up
the selected document; require the LLM client; call the capability; when
the response is falsy or lacks the `content` key report an error and
return, otherwise append the new IEP artifact to `iep_results`. The
capability call and the minted uuid/timestamp are environment inputs. -/
def handle_iep_generation (st : SessionState)
    (selected_doc_id display_name : String) (llm_available : Bool)
    (response : LLMResponse) (new_id timestamp : String) :
    SessionState × IEPOutcome :=
  match get_document_by_id st selected_doc_id with
  | none => (st, .documentNotFound)
  | some document =>
    if !llm_available then (st, .llmNotInitialized)
    else
      match response with
      | .content text =>
          let iep_result : IEPResult :=
            { id := new_id, source := display_name, source_id := selected_doc_id,
              content := text, timestamp := timestamp }
          ({ st with iep_results := st.iep_results ++ [iep_result] }, .success)
      | _ => (st, .generationFailed)

/-! The chat pipeline (`ui/components/chat.py`). -/

/-- The RAG chain's returned mapping as the chat code inspects it: an
optional `result` field and an optional `source_documents` field. -/
structure RAGResponse where
  result : Option String
  source_documents : Option (List Document)
  deriving Repr, DecidableEq

/-- Modelled from the spec: `validate_response_structure` lives in
`utils/ui_validation.py`, which is not among the repository sources. Per
spec section 4.3 the chain returns a mapping with `result` and
`source_documents`; the validator accepts a response exactly when the
`result` field it is about to read is present, and otherwise reports a
message. -/
def validate_response_structure (response : RAGResponse) : Bool × String :=
  if response.result.isSome then (true, "")
  else (false, "missing result field")

/-- The fixed assistant reply used when the RAG chain is unavailable
(chat.py lines 79-85). -/
def fallback_message : ChatMessage :=
  ⟨"assistant",
   "I can help answer questions about documents once they\x27re uploaded. For now, I can assist with general educational questions.",
   []⟩

/-- The fixed assistant reply used when the RAG chain raises or returns
an invalid structure (chat.py lines 102-108). -/
def chain_error_message : ChatMessage :=
  ⟨"assistant",
   "I encountered an error processing your question. Please try a different question or check if documents are properly loaded.",
   []⟩

/-- Embedding of `handle_chat_input` (chat.py lines 58-142) for one
submitted prompt: the user message is appended first; then the assistant
reply is the fallback text when the chain is absent, the error text when
the chain raised (`chain_result` is `none`) or its response fails
validation, and otherwise the response's `result` with its
`source_documents`; exactly that one reply is appended. -/
def handle_chat_input (st : SessionState) (prompt : String)
    (chain_present : Bool) (chain_result : Option RAGResponse) : SessionState :=
  let user_message : ChatMessage := ⟨"user", prompt, []⟩
  let st1 := { st with messages := st.messages ++ [user_message] }
  let message_data : ChatMessage :=
    if !chain_present then fallback_message
    else
      match chain_result with
      | none => chain_error_message
      | some response =>
          if (validate_response_structure response).fst then
            ⟨"assistant", response.result.getD "",
             response.source_documents.getD []⟩
          else chain_error_message
  { st1 with messages := st1.messages ++ [message_data] }

/-! Concrete fixtures used by witnesses. -/

/-- A concrete IEP artifact on file. -/
def iepA : IEPResult := ⟨"iep_A", "a.txt", "doc_0", "reading goals", "t0"⟩

/-- A session that has exactly the IEP artifact `iepA`. -/
def stWithIepA : SessionState :=
  { SessionState.initial with iep_results := [iepA] }

/-- A concrete registered document. -/
def docA : Document :=
  ⟨"Student reads at grade 2 level", [("source", "a.txt"), ("id", "doc_0")]⟩

/-- A session that has exactly the document `docA`. -/
def stWithDocA : SessionState :=
  { SessionState.initial with documents := [docA] }

/-- The form submission at the input that exhibits the C6 bug: timeframe
Weekly, empty selected-days list, every other required field filled, a
valid IEP reference, and a successful generation call. -/
def weekly_empty_days_run : SessionState × FormOutcome :=
  lesson_plan_form_submit stWithIepA "Math" "3rd Grade" "Weekly" "45 minutes"
    [] "Improve fluency" "" "" (some "iep_A") true (.content "plan text")
    "lp-1" "t1"

/-- An uploaded file that fully succeeds: loaded and indexed. -/
def fileGood1 : UploadFile := ⟨"a.txt", "t1", .loaded "alpha" [] true⟩

/-- A second fully succeeding uploaded file. -/
def fileGood2 : UploadFile := ⟨"c.txt", "t3", .loaded "gamma" [] true⟩

/-- An uploaded file whose extraction fails. -/
def fileBad : UploadFile := ⟨"b.txt", "t2", .loadFailure "unsupported format"⟩

/-- An uploaded file that loads but whose vector-store add fails. -/
def fileAddFails : UploadFile := ⟨"a.txt", "t1", .loaded "alpha" [] false⟩

/-- The document that ingesting `fileAddFails` into an empty session
registers. -/
def docAddFailed : Document :=
  ⟨"alpha", [("source", "a.txt"), ("upload_time", "t1"), ("id", "doc_0")]⟩

/-! Batch bookkeeping used to state the ingestion claims. -/

/-- True when the environment fully succeeds on this file: the loader
yields a document and the vector-store add succeeds. -/
def goodFile (f : UploadFile) : Bool :=
  match f.outcome with
  | .loaded _ _ add_ok => add_ok
  | _ => false

/-- Recognizer for per-file error reports. -/
def isFileError : IngestEvent → Bool
  | .fileError _ => true
  | _ => false

/-- Recognizer for per-file success reports. -/
def isFileSuccess : IngestEvent → Bool
  | .fileSuccess _ => true
  | _ => false

/-- Number of per-file errors reported in a run. -/
def errCount (es : List IngestEvent) : Nat := (es.filter isFileError).length

/-- Number of per-file successes reported in a run. -/
def succCount (es : List IngestEvent) : Nat := (es.filter isFileSuccess).length

/-! Definitions stating the spec's demanded policies in the spec's words,
for comparison with the behaviour embedded from the code. -/

/-- A document explicitly flagged unindexed, in the spec's words: its
metadata dict carries an `unindexed` key. (The ingestion code writes no
such flag anywhere.) -/
def flagged_unindexed (d : Document) : Bool :=
  d.metadata.any (fun kv => kv.fst == "unindexed")

/-- The policy demanded by the spec for C3, in the spec's words: after a
batch containing a document whose vector-index insertion fails, every
document of the resulting registry either predates the batch or is
explicitly flagged unindexed — that is, the failed document was either
removed again or flagged. -/
def index_failure_policy_holds : Prop :=
  ∀ (st : SessionState) (index : List String) (f : UploadFile)
    (c : String) (m : List (String × String)),
    f.outcome = FileOutcome.loaded c m false →
    ∀ d ∈ (process_uploaded_files st index true [f]).session.documents,
      d ∈ st.documents ∨ flagged_unindexed d = true

/-- The id-minting rule used at document registration (sidebar.py line
93): the string `doc_` followed by the current length of the documents
collection. -/
def minted_doc_id (st : SessionState) : String :=
  "doc_" ++ toString st.documents.length

/-- The C9 claim in the spec's words, for comparison with the code: the
minted id is independent of registry position, i.e. it does not depend on
the current contents of the documents collection. -/
def minted_id_position_independent : Prop :=
  ∀ st1 st2 : SessionState, minted_doc_id st1 = minted_doc_id st2

/-- The id a registered document carries in its metadata. -/
def doc_id_meta (d : Document) : Option String := metaGet d.metadata "id"

/-- Position-derived id layout: the document at registry position `i`
carries the metadata id `doc_` followed by `i`. -/
def WellIndexedDocs (docs : List Document) : Prop :=
  ∀ i (h : i < docs.length), doc_id_meta docs[i] = some ("doc_" ++ toString i)

/-! Helper lemmas. -/

theorem find?_iep_none (st : SessionState) (sid : String)
    (h : ∀ iep ∈ st.iep_results, iep.id ≠ sid) :
    st.iep_results.find? (fun iep => iep.id == sid) = none := by
  apply List.find?_eq_none.mpr
  intro iep hmem
  simpa using h iep hmem

theorem errCount_append (a b : List IngestEvent) :
    errCount (a ++ b) = errCount a + errCount b := by
  simp [errCount, List.filter_append]

theorem succCount_append (a b : List IngestEvent) :
    succCount (a ++ b) = succCount a + succCount b := by
  simp [succCount, List.filter_append]

theorem errCount_map_fileSuccess (l : List UploadFile) :
    errCount (l.map (fun f => IngestEvent.fileSuccess f.name)) = 0 := by
  induction l with
  | nil => rfl
  | cons f fs ih => simp [errCount, List.filter_cons, isFileError]

theorem succCount_map_fileSuccess (l : List UploadFile) :
    succCount (l.map (fun f => IngestEvent.fileSuccess f.name)) = l.length := by
  induction l with
  | nil => rfl
  | cons f fs ih => simpa [succCount, List.filter_cons, isFileSuccess] using ih

theorem processFile_good (s : IngestState) (f : UploadFile)
    (hf : goodFile f = true) :
    ∃ d : Document,
      (processFile s f).session.documents = s.session.documents ++ [d]
      ∧ (processFile s f).events = s.events ++ [.fileSuccess f.name] := by
  cases hout : f.outcome with
  | handlerError msg => simp [goodFile, hout] at hf
  | unexpectedError msg => simp [goodFile, hout] at hf
  | loadFailure msg => simp [goodFile, hout] at hf
  | loaded c m add_ok =>
      simp only [goodFile, hout] at hf
      subst hf
      exact ⟨⟨c, metaSet (metaSet (metaSet m "source" f.name) "upload_time"
        f.upload_time) "id" ("doc_" ++ toString s.session.documents.length)⟩,
        by simp [processFile, hout], by simp [processFile, hout]⟩

theorem processFile_loadFailure (s : IngestState) (f : UploadFile)
    (msg : String) (hf : f.outcome = FileOutcome.loadFailure msg) :
    (processFile s f).session = s.session
    ∧ (processFile s f).events = s.events ++ [.fileError f.name] := by
  constructor <;> simp [processFile, hf]

theorem foldl_processFile_good (files : List UploadFile)
    (hg : ∀ f ∈ files, goodFile f = true) (s : IngestState) :
    (files.foldl processFile s).session.documents.length
        = s.session.documents.length + files.length
    ∧ (files.foldl processFile s).events
        = s.events ++ files.map (fun f => IngestEvent.fileSuccess f.name) := by
  induction files generalizing s with
  | nil => simp
  | cons f fs ih =>
      obtain ⟨d, hd, he⟩ := processFile_good s f (hg f (by simp))
      obtain ⟨ih1, ih2⟩ := ih (fun x hx => hg x (by simp [hx])) (processFile s f)
      constructor
      · rw [show (f :: fs).foldl processFile s
            = fs.foldl processFile (processFile s f) from rfl, ih1, hd]
        simp [List.length_append]
        omega
      · rw [show (f :: fs).foldl processFile s
            = fs.foldl processFile (processFile s f) from rfl, ih2, he]
        simp [List.append_assoc]

theorem ingest_finalize_docs (s : IngestState) :
    (ingest_finalize s).session.documents = s.session.documents := by
  unfold ingest_finalize
  split
  · rfl
  · split <;> rfl

theorem ingest_finalize_index (s : IngestState) :
    (ingest_finalize s).index = s.index := by
  unfold ingest_finalize
  split
  · rfl
  · split <;> rfl

theorem ingest_finalize_events (s : IngestState) :
    ∃ e : IngestEvent, isFileError e = false ∧ isFileSuccess e = false
      ∧ (ingest_finalize s).events = s.events ++ [e] := by
  unfold ingest_finalize
  split
  · exact ⟨.batchSuccess s.documents_processed, rfl, rfl, rfl⟩
  · split
    · exact ⟨.batchWarning s.documents_processed, rfl, rfl, rfl⟩
    · exact ⟨.batchFailure, rfl, rfl, rfl⟩

theorem any_metaSet (m : List (String × String)) (k v q : String)
    (hk : (k == q) = false)
    (hm : (m.any fun kv => kv.fst == q) = false) :
    ((metaSet m k v).any fun kv => kv.fst == q) = false := by
  induction m with
  | nil => simp [metaSet, hk]
  | cons kv rest ih =>
      simp only [List.any_cons, Bool.or_eq_false_iff] at hm
      cases hkk : kv.fst == k with
      | true => simp [metaSet, hkk, List.any_cons, hk, hm.2]
      | false => simp [metaSet, hkk, List.any_cons, hm.1, ih hm.2]

theorem processFile_addFail (s : IngestState) (f : UploadFile) (c : String)
    (m : List (String × String))
    (hf : f.outcome = FileOutcome.loaded c m false) :
    (processFile s f).session.documents = s.session.documents ++
        [⟨c, metaSet (metaSet (metaSet m "source" f.name) "upload_time"
          f.upload_time) "id" ("doc_" ++ toString s.session.documents.length)⟩]
    ∧ (processFile s f).index = s.index
    ∧ (processFile s f).events = s.events ++ [.fileError f.name] := by
  refine ⟨?_, ?_, ?_⟩ <;> simp [processFile, hf]

theorem metaGet_metaSet_self (m : List (String × String)) (k v : String) :
    metaGet (metaSet m k v) k = some v := by
  induction m with
  | nil => simp [metaSet, metaGet, List.find?]
  | cons kv rest ih =>
      cases hkk : kv.fst == k with
      | true => simp [metaSet, hkk, metaGet, List.find?]
      | false =>
          have ih2 := ih
          simp only [metaGet] at ih2
          simp [metaSet, hkk, metaGet, List.find?, ih2]

theorem wellIndexedDocs_append (docs : List Document) (d : Document)
    (hw : WellIndexedDocs docs)
    (hd : doc_id_meta d = some ("doc_" ++ toString docs.length)) :
    WellIndexedDocs (docs ++ [d]) := by
  intro i h
  rcases Nat.lt_or_ge i docs.length with hi | hi
  · rw [List.getElem_append_left hi]
    exact hw i hi
  · have hlen : i = docs.length := by
      simp [List.length_append] at h
      omega
    subst hlen
    rw [List.getElem_concat_length docs d docs.length rfl]
    exact hd

theorem processFile_wellIndexed (s : IngestState) (f : UploadFile)
    (hw : WellIndexedDocs s.session.documents) :
    WellIndexedDocs (processFile s f).session.documents
    ∧ ∃ tail, (processFile s f).session.documents
        = s.session.documents ++ tail := by
  cases hout : f.outcome with
  | handlerError msg =>
      have hdocs : (processFile s f).session.documents = s.session.documents := by
        simp [processFile, hout]
      exact ⟨by rw [hdocs]; exact hw, [], by simp [hdocs]⟩
  | unexpectedError msg =>
      have hdocs : (processFile s f).session.documents = s.session.documents := by
        simp [processFile, hout]
      exact ⟨by rw [hdocs]; exact hw, [], by simp [hdocs]⟩
  | loadFailure msg =>
      have hdocs : (processFile s f).session.documents = s.session.documents := by
        simp [processFile, hout]
      exact ⟨by rw [hdocs]; exact hw, [], by simp [hdocs]⟩
  | loaded c m add_ok =>
      have hd : doc_id_meta (⟨c, metaSet (metaSet (metaSet m "source" f.name)
          "upload_time" f.upload_time) "id"
          ("doc_" ++ toString s.session.documents.length)⟩ : Document)
          = some ("doc_" ++ toString s.session.documents.length) :=
        metaGet_metaSet_self _ _ _
      have hdocs : (processFile s f).session.documents
          = s.session.documents ++ [⟨c, metaSet (metaSet (metaSet m "source"
            f.name) "upload_time" f.upload_time) "id"
            ("doc_" ++ toString s.session.documents.length)⟩] := by
        cases add_ok <;> simp [processFile, hout]
      refine ⟨by rw [hdocs]; exact wellIndexedDocs_append _ _ hw hd, _, hdocs⟩

theorem foldl_processFile_wellIndexed (files : List UploadFile)
    (s : IngestState) (hw : WellIndexedDocs s.session.documents) :
    WellIndexedDocs (files.foldl processFile s).session.documents
    ∧ ∃ tail, (files.foldl processFile s).session.documents
        = s.session.documents ++ tail := by
  induction files generalizing s with
  | nil => exact ⟨hw, [], by simp⟩
  | cons f fs ih =>
      obtain ⟨hw1, t1, ht1⟩ := processFile_wellIndexed s f hw
      obtain ⟨hw2, t2, ht2⟩ := ih (processFile s f) hw1
      refine ⟨hw2, t1 ++ t2, ?_⟩
      rw [show (f :: fs).foldl processFile s
          = fs.foldl processFile (processFile s f) from rfl, ht2, ht1,
        List.append_assoc]

/-! Claim theorems. -/

/-- C1: a lesson-plan generation request whose `source_iep_id` equals the
id of no IEP artifact currently in `iep_results` fails with the not-found
error and leaves the state store unchanged; in particular `lesson_plans`
gains no artifact. -/
theorem lesson_plan_dangling_iep_rejected (st : SessionState)
    (subject grade_level timeframe duration : String) (days : List String)
    (goals materials accs sid : String) (avail : Bool) (resp : LLMResponse)
    (nid ts : String) (h : ∀ iep ∈ st.iep_results, iep.id ≠ sid) :
    handle_lesson_plan_generation st subject grade_level timeframe duration days
      goals materials accs sid avail resp nid ts
      = (st, LessonPlanOutcome.iepNotFound) := by
  unfold handle_lesson_plan_generation
  rw [find?_iep_none st sid h]

/-- Witness for C1: with only `iep_A` on file, requesting `iep_B` fails
and changes nothing. -/
theorem lesson_plan_dangling_iep_rejected_witness :
    handle_lesson_plan_generation stWithIepA "Math" "Grade 3" "Weekly"
      "45 minutes" ["Monday"] "Improve fluency" "" "" "iep_B" true
      (.content "plan") "lp-1" "t1" = (stWithIepA, LessonPlanOutcome.iepNotFound) :=
  lesson_plan_dangling_iep_rejected stWithIepA "Math" "Grade 3" "Weekly"
    "45 minutes" ["Monday"] "Improve fluency" "" "" "iep_B" true
    (.content "plan") "lp-1" "t1" (by decide)

/-- C4: the clear-documents action empties the `documents`, `iep_results`
and `lesson_plans` collections, resets the vector-store-initialized
health flag to false, and leaves the chat messages collection and the
query log unchanged. -/
theorem clear_documents_cascades_and_preserves_logs
    (st : SessionState) (index : List String) (vsp : Bool) :
    (clear_documents st index vsp).fst.documents = []
    ∧ (clear_documents st index vsp).fst.iep_results = []
    ∧ (clear_documents st index vsp).fst.lesson_plans = []
    ∧ (clear_documents st index vsp).fst.vector_store_initialized = false
    ∧ (clear_documents st index vsp).fst.messages = st.messages
    ∧ (clear_documents st index vsp).fst.rag_queries = st.rag_queries :=
  ⟨rfl, rfl, rfl, rfl, rfl, rfl⟩

/-- C5: lesson-plan prompt assembly is a pure function of its inputs —
two calls of `prepare_lesson_plan_prompt` on identical subject, grade
level, timeframe, duration, days, goals, materials, accommodations and
IEP yield byte-identical prompt strings. -/
theorem lesson_plan_prompt_deterministic
    (s1 s2 g1 g2 t1 t2 d1 d2 : String)
    (dw1 dw2 gl1 gl2 ml1 ml2 al1 al2 : List String) (iep1 iep2 : IEPResult)
    (hs : s1 = s2) (hg : g1 = g2) (ht : t1 = t2) (hd : d1 = d2)
    (hdw : dw1 = dw2) (hgl : gl1 = gl2) (hml : ml1 = ml2) (hal : al1 = al2)
    (hiep : iep1 = iep2) :
    (prepare_lesson_plan_prompt s1 g1 t1 d1 dw1 gl1 ml1 al1 iep1).data
      = (prepare_lesson_plan_prompt s2 g2 t2 d2 dw2 gl2 ml2 al2 iep2).data := by
  subst hs hg ht hd hdw hgl hml hal hiep
  rfl

/-- Witness for C5 at a concrete parameter set. -/
theorem lesson_plan_prompt_deterministic_witness :
    (prepare_lesson_plan_prompt "Math" "Grade 3" "Weekly" "45 minutes"
        ["Monday", "Wednesday"] ["Improve fluency"] ["cards"] [] iepA).data
      = (prepare_lesson_plan_prompt "Math" "Grade 3" "Weekly" "45 minutes"
        ["Monday", "Wednesday"] ["Improve fluency"] ["cards"] [] iepA).data :=
  lesson_plan_prompt_deterministic _ _ _ _ _ _ _ _ _ _ _ _ _ _ _ _ _ _
    rfl rfl rfl rfl rfl rfl rfl rfl rfl

/-- C6: the Daily half of the claim holds — with timeframe Daily the days
list is exactly ["Daily"] — but the Weekly half fails on the code: a
Weekly submission with an empty selected-days list passes the
required-field check (`days_per_week` is missing from the checked tuple
in `render_lesson_plan_form`) and appends a lesson-plan artifact whose
stored days list is empty, instead of being rejected with no artifact. -/
theorem weekly_empty_days_creates_artifact :
    form_days_per_week "Daily" [] = ["Daily"]
    ∧ weekly_empty_days_run.snd = FormOutcome.generated LessonPlanOutcome.success
    ∧ weekly_empty_days_run.fst.lesson_plans.map LessonPlan.days = [[]] := by
  decide

/-- C7: when the generation capability's response to an IEP request is
absent or lacks the content field, the operation does not succeed and the
state store — in particular `iep_results` — is unchanged. -/
theorem iep_missing_content_no_artifact (st : SessionState)
    (doc_id name : String) (avail : Bool) (resp : LLMResponse)
    (nid ts : String)
    (h : resp = LLMResponse.noResponse ∨ resp = LLMResponse.missingContent) :
    (handle_iep_generation st doc_id name avail resp nid ts).fst = st
    ∧ (handle_iep_generation st doc_id name avail resp nid ts).snd
        ≠ IEPOutcome.success := by
  unfold handle_iep_generation
  rcases h with h | h <;> subst h <;>
    cases hdoc : get_document_by_id st doc_id <;> cases avail <;> simp

/-- Witness for C7: with `docA` on file and an available client, a
response lacking `content` leaves the state unchanged. -/
theorem iep_missing_content_no_artifact_witness :
    (handle_iep_generation stWithDocA "doc_0" "a.txt" true
        LLMResponse.missingContent "iep-9" "t9").fst = stWithDocA
    ∧ (handle_iep_generation stWithDocA "doc_0" "a.txt" true
        LLMResponse.missingContent "iep-9" "t9").snd ≠ IEPOutcome.success :=
  iep_missing_content_no_artifact stWithDocA "doc_0" "a.txt" true
    LLMResponse.missingContent "iep-9" "t9" (Or.inr rfl)

/-- C8: for every ingestion batch run with the vector store present, the
file-handler cleanup is the last event of the run, whatever the per-file
outcomes were. -/
theorem ingestion_cleanup_always_runs (st : SessionState) (index : List String)
    (files : List UploadFile) :
    (process_uploaded_files st index true files).events.getLast?
      = some IngestEvent.cleanup := by
  show (process_with_store st index files).events.getLast?
      = some IngestEvent.cleanup
  unfold process_with_store
  exact List.getLast?_concat _

/-- C10: handling one chat prompt appends exactly two entries to the
messages collection — the user message, then exactly one assistant
message — whether the chain is absent, raised an exception, or returned
a valid or invalid response. -/
theorem chat_appends_user_then_one_assistant (st : SessionState)
    (prompt : String) (chain_present : Bool)
    (chain_result : Option RAGResponse) :
    ∃ reply : ChatMessage,
      (handle_chat_input st prompt chain_present chain_result).messages
        = st.messages ++ [⟨"user", prompt, []⟩, reply]
      ∧ reply.role = "assistant" := by
  cases chain_present with
  | false =>
      exact ⟨fallback_message, by simp [handle_chat_input], rfl⟩
  | true =>
      cases chain_result with
      | none => exact ⟨chain_error_message, by simp [handle_chat_input], rfl⟩
      | some response =>
          cases hres : response.result with
          | none =>
              exact ⟨chain_error_message,
                by simp [handle_chat_input, validate_response_structure, hres],
                rfl⟩
          | some text =>
              exact ⟨⟨"assistant", text, response.source_documents.getD []⟩,
                by simp [handle_chat_input, validate_response_structure, hres],
                rfl⟩

/-- C2: in a batch where exactly one file fails extraction and every
other file fully succeeds, processing continues past the failed file:
exactly one per-file error is reported, one success per remaining file is
reported, and the documents collection grows by exactly the number of
succeeding files — one less than the batch size. -/
theorem batch_continues_on_single_failure (st : SessionState)
    (index : List String) (l1 l2 : List UploadFile) (bad : UploadFile)
    (msg : String) (h1 : ∀ f ∈ l1, goodFile f = true)
    (h2 : ∀ f ∈ l2, goodFile f = true)
    (hbad : bad.outcome = FileOutcome.loadFailure msg) :
    (process_uploaded_files st index true (l1 ++ bad :: l2)).session.documents.length
        = st.documents.length + (l1.length + l2.length)
    ∧ errCount (process_uploaded_files st index true (l1 ++ bad :: l2)).events = 1
    ∧ succCount (process_uploaded_files st index true (l1 ++ bad :: l2)).events
        = l1.length + l2.length := by
  have hfold : (l1 ++ bad :: l2).foldl processFile
        (⟨st, index, true, 0, []⟩ : IngestState)
      = l2.foldl processFile
          (processFile (l1.foldl processFile ⟨st, index, true, 0, []⟩) bad) := by
    rw [List.foldl_append, List.foldl_cons]
  obtain ⟨a1, a2⟩ := foldl_processFile_good l1 h1 ⟨st, index, true, 0, []⟩
  obtain ⟨b1, b2⟩ := processFile_loadFailure
    (l1.foldl processFile ⟨st, index, true, 0, []⟩) bad msg hbad
  obtain ⟨c1, c2⟩ := foldl_processFile_good l2 h2
    (processFile (l1.foldl processFile ⟨st, index, true, 0, []⟩) bad)
  obtain ⟨e, he1, he2, he3⟩ := ingest_finalize_events
    ((l1 ++ bad :: l2).foldl processFile ⟨st, index, true, 0, []⟩)
  have hzero : errCount [e] = 0 := by simp [errCount, List.filter_cons, he1]
  have hzero2 : succCount [e] = 0 := by
    simp [succCount, List.filter_cons, he2]
  refine ⟨?_, ?_, ?_⟩
  · show (ingest_finalize ((l1 ++ bad :: l2).foldl processFile
        ⟨st, index, true, 0, []⟩)).session.documents.length = _
    rw [ingest_finalize_docs, hfold, c1, b1, a1]
    show st.documents.length + l1.length + l2.length = _
    omega
  · show errCount ((ingest_finalize ((l1 ++ bad :: l2).foldl processFile
        ⟨st, index, true, 0, []⟩)).events ++ [IngestEvent.cleanup]) = 1
    rw [he3, hfold, c2, b2, a2]
    show errCount (((([] ++ _) ++ _) ++ _) ++ [e] ++ [IngestEvent.cleanup]) = 1
    simp only [List.nil_append, errCount_append, errCount_map_fileSuccess,
      hzero]
    show 0 + 1 + 0 + 0 + 0 = 1
    omega
  · show succCount ((ingest_finalize ((l1 ++ bad :: l2).foldl processFile
        ⟨st, index, true, 0, []⟩)).events ++ [IngestEvent.cleanup]) = _
    rw [he3, hfold, c2, b2, a2]
    simp only [List.nil_append, succCount_append, succCount_map_fileSuccess,
      hzero2]
    show l1.length + 0 + l2.length + 0 + 0 = l1.length + l2.length
    omega

/-- Witness for C2: a three-file batch whose middle file fails extraction
yields two registered documents, one reported error and two successes. -/
theorem batch_continues_on_single_failure_witness :
    (process_uploaded_files SessionState.initial [] true
        [fileGood1, fileBad, fileGood2]).session.documents.length
        = SessionState.initial.documents.length + (1 + 1)
    ∧ errCount (process_uploaded_files SessionState.initial [] true
        [fileGood1, fileBad, fileGood2]).events = 1
    ∧ succCount (process_uploaded_files SessionState.initial [] true
        [fileGood1, fileBad, fileGood2]).events = 1 + 1 :=
  batch_continues_on_single_failure SessionState.initial [] [fileGood1]
    [fileGood2] fileBad "unsupported format" (by decide) (by decide) rfl

/-- Counterexample for C3: the demanded removed-or-flagged policy is
false of the code — ingesting a file whose vector-store add fails leaves
the registered document in the documents collection, carrying no
unindexed flag. -/
theorem index_failure_policy_violated : ¬ index_failure_policy_holds :=
  fun h =>
    absurd
      (h SessionState.initial [] fileAddFails "alpha" [] rfl docAddFailed
        (by decide))
      (by decide)

/-- C3 as amended: the code's uniform policy on a failed vector-index
insertion is to keep the document — it was appended to the registry
before the add was attempted — unflagged: the registry gains exactly the
new document, the index gains nothing, the document carries no unindexed
flag, and one per-file error is reported while the batch continues. -/
theorem index_failure_document_kept (st : SessionState) (index : List String)
    (f : UploadFile) (c : String) (m : List (String × String))
    (hf : f.outcome = FileOutcome.loaded c m false)
    (hm : (m.any fun kv => kv.fst == "unindexed") = false) :
    ∃ d : Document,
      (process_uploaded_files st index true [f]).session.documents
          = st.documents ++ [d]
      ∧ (process_uploaded_files st index true [f]).index = index
      ∧ flagged_unindexed d = false
      ∧ errCount (process_uploaded_files st index true [f]).events = 1 := by
  obtain ⟨hd, hi, he⟩ := processFile_addFail ⟨st, index, true, 0, []⟩ f c m hf
  obtain ⟨e, he1, he2, he3⟩ := ingest_finalize_events
    (processFile ⟨st, index, true, 0, []⟩ f)
  have hzero : errCount [e] = 0 := by simp [errCount, List.filter_cons, he1]
  refine ⟨⟨c, metaSet (metaSet (metaSet m "source" f.name) "upload_time"
    f.upload_time) "id" ("doc_" ++ toString st.documents.length)⟩,
    ?_, ?_, ?_, ?_⟩
  · show (ingest_finalize (processFile ⟨st, index, true, 0,
        []⟩ f)).session.documents = _
    rw [ingest_finalize_docs, hd]
  · show (ingest_finalize (processFile ⟨st, index, true, 0, []⟩ f)).index = _
    rw [ingest_finalize_index, hi]
  · exact any_metaSet _ "id" _ "unindexed" (by decide)
      (any_metaSet _ "upload_time" _ "unindexed" (by decide)
        (any_metaSet m "source" f.name "unindexed" (by decide) hm))
  · show errCount ((ingest_finalize (processFile ⟨st, index, true, 0,
        []⟩ f)).events ++ [IngestEvent.cleanup]) = 1
    rw [he3, he]
    show errCount (([] ++ _) ++ [e] ++ [IngestEvent.cleanup]) = 1
    simp only [List.nil_append, errCount_append, hzero]
    show errCount [IngestEvent.fileError f.name] + 0 + 0 = 1
    rfl

/-- Witness for C3's amended theorem at a concrete failing add. -/
theorem index_failure_document_kept_witness :
    ∃ d : Document,
      (process_uploaded_files SessionState.initial [] true
          [fileAddFails]).session.documents
          = SessionState.initial.documents ++ [d]
      ∧ (process_uploaded_files SessionState.initial [] true
          [fileAddFails]).index = []
      ∧ flagged_unindexed d = false
      ∧ errCount (process_uploaded_files SessionState.initial [] true
          [fileAddFails]).events = 1 :=
  index_failure_document_kept SessionState.initial [] fileAddFails "alpha" []
    rfl rfl

/-- Counterexample for C9: the minted document id is not independent of
registry position — the same rule yields different ids in states that
differ only in registry length — and after a clear the very next
registered document reuses the id `doc_0` that an earlier document of the
same session carried, so ids are neither position-independent nor unique
across the whole session. -/
theorem doc_id_depends_on_position :
    ¬ minted_id_position_independent
    ∧ (process_uploaded_files SessionState.initial [] true
        [fileGood1]).session.documents.map doc_id_meta = [some "doc_0"]
    ∧ (process_uploaded_files (clear_documents (process_uploaded_files
        SessionState.initial [] true [fileGood1]).session [] true).fst []
        true [fileGood2]).session.documents.map doc_id_meta
        = [some "doc_0"] := by
  refine ⟨fun h => absurd (h SessionState.initial stWithDocA) (by decide),
    by decide, by decide⟩

/-- C9 as amended: document ids are minted at creation from the registry
position — the document registered at position `i` carries id `doc_` plus
`i` — so any ingestion run starting from a position-indexed registry
leaves a position-indexed registry, and already-registered documents
(with their ids) are preserved unchanged as a prefix by later
additions. -/
theorem doc_ids_minted_from_position (st : SessionState)
    (index : List String) (files : List UploadFile)
    (hw : WellIndexedDocs st.documents) :
    WellIndexedDocs (process_uploaded_files st index true
        files).session.documents
    ∧ ∃ tail, (process_uploaded_files st index true files).session.documents
        = st.documents ++ tail := by
  have hdocs : (process_uploaded_files st index true files).session.documents
      = (files.foldl processFile ⟨st, index, true, 0,
          []⟩).session.documents := by
    show (ingest_finalize (files.foldl processFile ⟨st, index, true, 0,
        []⟩)).session.documents = _
    exact ingest_finalize_docs _
  obtain ⟨hw2, tail, ht⟩ := foldl_processFile_wellIndexed files
    ⟨st, index, true, 0, []⟩ hw
  rw [hdocs]
  exact ⟨hw2, tail, ht⟩

/-- Witness for C9's amended theorem: ingesting one file into the empty
session yields a position-indexed registry extending the empty one. -/
theorem doc_ids_minted_from_position_witness :
    WellIndexedDocs (process_uploaded_files SessionState.initial [] true
        [fileGood1]).session.documents
    ∧ ∃ tail, (process_uploaded_files SessionState.initial [] true
        [fileGood1]).session.documents
        = SessionState.initial.documents ++ tail :=
  doc_ids_minted_from_position SessionState.initial [] [fileGood1]
    (fun i h => absurd h (Nat.not_lt_zero i))

end EduAssist
